import Mathlib

/-!
Verification development for the anomalyze-web CDR anomaly-detection engine.

The detectors live in `src/pages/cdr_pages/`: `Call_Spikes.py`, `Strange_sim_use.py`,
`SIM_Swapping.py`, `Toll_Free_Abuse.py`, `Tower_Jumping.py`.  Each module is embedded
below as executable Lean definitions over lists of records, mirroring the pandas
pipelines: column normalization and validation, type coercion, filtering, grouping
(`groupby` is modelled by deduplicated keys paired with counts), and the per-detector
scoring rules.  Timestamps are modelled as integral epoch counts (pandas `floor` on a
frequency becomes integer division), string operations are modelled at the character
level so that everything kernel-evaluates, and the floating-point haversine distance of
the Tower-Jump detector is abstracted as a distance-function parameter (its value never
matters for the properties proved here, only how the flagging mask uses it).
-/

namespace AnomalyzeWeb

/-! ### Character / string helpers (Python `str` operations used by the modules) -/

/-- Key used by `normalize_columns`: lower-case and drop spaces and underscores
(Python `col.lower().replace(" ", "").replace("_", "")`). -/
def normKeyAux : List Char → List Char
  | [] => []
  | c :: cs => if c = ' ' ∨ c = '_' then normKeyAux cs else c.toLower :: normKeyAux cs

def normKey (s : String) : String := ⟨normKeyAux s.data⟩

/-- Python `str.upper()` (ASCII suffices for the direction codes compared here). -/
def pyUpper (s : String) : String := ⟨s.data.map Char.toUpper⟩

/-- Python `str.startswith(pre)` / pandas `.str.startswith`. -/
def pyStartsWith (s pre : String) : Bool := pre.data.isPrefixOf s.data

/-- pandas `.str.replace(r"\.0$", "", regex=True)`: strip one trailing ".0". -/
def stripDot0 (s : String) : String :=
  match s.data.reverse with
  | '0' :: '.' :: rest => ⟨rest.reverse⟩
  | _ => s

/-- Python default `str.strip()` whitespace test. -/
def isPyWS (c : Char) : Bool := c = ' ' ∨ c = '\t' ∨ c = '\n' ∨ c = '\r'

def trimChars (l : List Char) : List Char :=
  ((l.dropWhile isPyWS).reverse.dropWhile isPyWS).reverse

def pyTrim (s : String) : String := ⟨trimChars s.data⟩

/-- Split a string at commas (Python `s.split(',')`). -/
def splitCommaAux : List Char → List Char → List (List Char)
  | [], acc => [acc.reverse]
  | ',' :: rest, acc => acc.reverse :: splitCommaAux rest []
  | c :: rest, acc => splitCommaAux rest (c :: acc)

/-- `Toll_Free_Abuse.analyze_logic` step 1:
`tuple(p.strip() for p in prefixes_str.split(',') if p.strip())`. -/
def parsePrefixList (s : String) : List String :=
  ((splitCommaAux s.data []).map (fun l => (⟨trimChars l⟩ : String))).filter (fun p => p ≠ "")

def startsWithAny (pres : List String) (s : String) : Bool :=
  pres.any (fun p => pyStartsWith s p)

/-! ### DataFrame model for schema normalization and validation

A dataframe is a list of named columns (name, cell values); `normalize_columns` and
`validate_input` only inspect and rename column names, never the values. -/

structure DataFrame where
  cols : List (String × List String)
deriving DecidableEq

def DataFrame.columns (df : DataFrame) : List String := df.cols.map Prod.fst

/-- `df_cols` dict of `normalize_columns`: normalized key ↦ original column name;
a Python dict comprehension keeps the LAST column for a duplicated key. -/
def dfColsLookup (cols : List String) (k : String) : Option String :=
  (cols.filter (fun c => normKey c == k)).getLast?

/-- Inner loop of `normalize_columns`: first variant whose key matches an existing
column wins (`break`), returning the matched original column name. -/
def firstVariantMatch (cols : List String) (variants : List String) : Option String :=
  variants.findSome? (fun v => dfColsLookup cols (normKey v))

/-- The `col_rename` dict, as its insertion sequence (source column, canonical name). -/
def buildRename (colmap : List (String × List String)) (cols : List String) :
    List (String × String) :=
  colmap.filterMap (fun p => (firstVariantMatch cols p.2).map (fun src => (src, p.1)))

/-- Dict lookup where later insertions overwrite earlier ones. -/
def lookupLast (assoc : List (String × String)) (k : String) : Option String :=
  ((assoc.filter (fun e => e.1 == k)).getLast?).map (fun e => e.2)

/-- `normalize_columns(df, column_map)`, shared verbatim by all five modules. -/
def normalize_columns (df : DataFrame) (colmap : List (String × List String)) : DataFrame :=
  let rn := buildRename colmap df.columns
  ⟨df.cols.map (fun p => ((lookupLast rn p.1).getD p.1, p.2))⟩

/-- Side condition satisfied by every `CDR_COLUMN_MAP` in the repository: a variant
key never collides with the key of a different canonical field. -/
def goodColumnMap (m : List (String × List String)) : Bool :=
  m.all (fun p => p.2.all (fun v => m.all (fun q => normKey v != normKey q.1 || q.1 == p.1)))

/-- `CDR_COLUMN_MAP` of `Call_Spikes.py`. -/
def callSpikesColumnMap : List (String × List String) :=
  [("calling_number", ["calling_number", "caller", "source_number"]),
   ("called_number", ["called_number", "callee", "dest_number"]),
   ("start_time", ["start_time", "timestamp", "date_time", "call_time"]),
   ("call_direction", ["call_direction", "direction", "type"])]

/-- `CDR_COLUMN_MAP` of `Strange_sim_use.py`. -/
def strangeSimColumnMap : List (String × List String) :=
  [("calling_number", ["calling_number", "caller", "source_number", "a_party"]),
   ("called_number", ["called_number", "callee", "dest_number", "b_party"]),
   ("start_time", ["start_time", "timestamp", "date_time", "call_time"]),
   ("call_direction", ["call_direction", "direction", "type", "call_type"]),
   ("duration", ["duration", "duration_seconds", "billable_duration"])]

/-- `CDR_COLUMN_MAP` of `SIM_Swapping.py`. -/
def simSwapColumnMap : List (String × List String) :=
  [("imsi", ["imsi", "subscriber_id", "sim_id"]),
   ("imei", ["imei", "device_id", "serial_number"]),
   ("calling_number", ["calling_number", "caller", "source_number", "a_party"]),
   ("called_number", ["called_number", "callee", "dest_number", "b_party"]),
   ("start_time", ["start_time", "timestamp", "date_time", "call_time"])]

/-- `CDR_COLUMN_MAP` of `Toll_Free_Abuse.py`. -/
def tollFreeColumnMap : List (String × List String) :=
  [("calling_number", ["calling_number", "caller", "source_number", "a_party"]),
   ("called_number", ["called_number", "callee", "dest_number", "b_party"]),
   ("call_direction", ["call_direction", "direction", "type", "call_type"]),
   ("start_time", ["start_time", "timestamp", "date_time", "call_time"])]

/-- `CDR_COLUMN_MAP` of `Tower_Jumping.py`. -/
def towerJumpColumnMap : List (String × List String) :=
  [("imsi", ["imsi", "subscriber_id"]),
   ("start_time", ["start_time", "timestamp", "date_time", "call_time"]),
   ("cell_id", ["cell_id", "cellid", "cid"]),
   ("tower_id", ["tower_id", "towerid", "lac", "location_area_code"]),
   ("latitude", ["latitude", "lat"]),
   ("longitude", ["longitude", "lon", "lng"])]

def cdrColumnMaps : List (List (String × List String)) :=
  [callSpikesColumnMap, strangeSimColumnMap, simSwapColumnMap,
   tollFreeColumnMap, towerJumpColumnMap]

/-! ### Record validation (`validate_input`, shared verbatim by all five modules)

`st.stop()` aborts the script run, so a missing-columns failure is modelled as the
error branch of `Except`; a detector run composed after validation short-circuits. -/

def validate_input (required : List String) (df : DataFrame) :
    Except (List String) DataFrame :=
  let missing := required.filter (fun c => !(df.columns.contains c))
  if missing.isEmpty then Except.ok df else Except.error missing

def requiredCallSpikes : List String :=
  ["calling_number", "called_number", "start_time", "call_direction"]

def requiredStrangeSim : List String :=
  ["calling_number", "called_number", "call_direction", "start_time"]

def requiredSimSwap : List String :=
  ["imsi", "imei", "calling_number", "called_number", "start_time"]

def requiredTollFree : List String :=
  ["calling_number", "called_number", "call_direction", "start_time"]

def requiredTowerJump : List String :=
  ["imsi", "start_time", "latitude", "longitude", "cell_id"]

def requiredColumnSets : List (List String) :=
  [requiredCallSpikes, requiredStrangeSim, requiredSimSwap,
   requiredTollFree, requiredTowerJump]

/-- A detector run as performed in each module's `run()`: validation, then analysis;
`st.stop()` on missing columns means the analysis never executes. -/
def runDetector {F : Type} (analyze : DataFrame → F) (required : List String)
    (df : DataFrame) : Except (List String) F :=
  (validate_input required df).map analyze

/-! ### Grouping helper

`df.groupby(keys).size()` yields one row per distinct key with its group size. -/

def groupCounts {K : Type} [DecidableEq K] (l : List K) : List (K × Nat) :=
  l.dedup.map (fun k => (k, l.count k))

/-- pandas `sort_values(by=count, ascending=False)` / `value_counts()` ordering
(the concrete sort algorithm is irrelevant; any sort models it). -/
def sortCountDesc {K : Type} (l : List (K × Nat)) : List (K × Nat) :=
  List.insertionSort (fun a b => b.2 ≤ a.2) l

/-! ### Canonical CDR row for the three call-record detectors -/

structure CallRow where
  calling_number : String
  called_number : String
  call_direction : String
  start_time : Nat
deriving DecidableEq

end AnomalyzeWeb

namespace AnomalyzeWeb.CallSpikes

/-! Embedding of `Call_Spikes.py` `analyze_logic` (lines 47-70). -/

/-- Accepted outgoing direction codes of `Call_Spikes.py` line 53 (upper-cased match).
Note the set does NOT contain `"1"`, unlike `Strange_sim_use.py` / `Toll_Free_Abuse.py`. -/
def outgoingDirs : List String := ["MO", "OUTGOING", "CALL OUT"]

def outgoing (df : List CallRow) : List CallRow :=
  df.filter (fun r => outgoingDirs.contains (pyUpper r.call_direction))

/-- Line 61: destinations not starting with the home prefix `"91"`. -/
def intl_calls (df : List CallRow) : List CallRow :=
  (outgoing df).filter (fun r => !(pyStartsWith r.called_number "91"))

def intl_counts (df : List CallRow) : List (String × Nat) :=
  groupCounts ((intl_calls df).map (fun r => r.calling_number))

/-- Line 63: strict `>` against the international threshold. -/
def intl_suspects (df : List CallRow) (intlThreshold : Nat) : List (String × Nat) :=
  (intl_counts df).filter (fun p => p.2 > intlThreshold)

/-- `dt.floor('h')` on an epoch-seconds timestamp. -/
def hour_window (t : Nat) : Nat := t / 3600 * 3600

def call_spikes (df : List CallRow) : List ((String × Nat) × Nat) :=
  groupCounts ((outgoing df).map (fun r => (r.calling_number, hour_window r.start_time)))

def spike_suspects (df : List CallRow) (spikeThreshold : Nat) :
    List ((String × Nat) × Nat) :=
  (call_spikes df).filter (fun p => p.2 > spikeThreshold)

def analyze_logic (df : List CallRow) (intlThreshold spikeThreshold : Nat) :
    List (String × Nat) × List ((String × Nat) × Nat) :=
  if (outgoing df).isEmpty then ([], [])
  else (intl_suspects df intlThreshold, spike_suspects df spikeThreshold)

/-- A call qualifying for the international scoring of this module:
outgoing direction and destination not starting with "91". -/
def qualifies (r : CallRow) : Bool :=
  outgoingDirs.contains (pyUpper r.call_direction) && !(pyStartsWith r.called_number "91")

def qualCount (df : List CallRow) (a : String) : Nat :=
  ((df.filter qualifies).map (fun r => r.calling_number)).count a

end AnomalyzeWeb.CallSpikes

namespace AnomalyzeWeb.StrangeSim

/-! Embedding of `Strange_sim_use.py` `analyze_logic` (lines 57-88). -/

/-- Accepted outgoing direction codes of `Strange_sim_use.py` line 65 (includes "1"). -/
def outgoingDirs : List String := ["MO", "OUTGOING", "1", "CALL OUT"]

def outgoing (df : List CallRow) : List CallRow :=
  df.filter (fun r => outgoingDirs.contains (pyUpper r.call_direction))

/-- Lines 74-77: not starting with "91" and longer than 6 characters. -/
def intlMask (r : CallRow) : Bool :=
  !(pyStartsWith r.called_number "91") && decide (r.called_number.length > 6)

def intl_calls (df : List CallRow) : List CallRow :=
  (outgoing df).filter intlMask

def call_counts (df : List CallRow) : List (String × Nat) :=
  groupCounts ((intl_calls df).map (fun r => r.calling_number))

/-- Lines 84-88: strict `>` threshold, then sort by count descending. -/
def analyze_logic (df : List CallRow) (threshold : Nat) : List (String × Nat) :=
  if (outgoing df).isEmpty then []
  else sortCountDesc ((call_counts df).filter (fun p => p.2 > threshold))

/-- A call qualifying for the international scoring of this module. -/
def qualifies (r : CallRow) : Bool :=
  outgoingDirs.contains (pyUpper r.call_direction) && intlMask r

def qualCount (df : List CallRow) (a : String) : Nat :=
  ((df.filter qualifies).map (fun r => r.calling_number)).count a

end AnomalyzeWeb.StrangeSim

namespace AnomalyzeWeb.TollFree

/-! Embedding of `Toll_Free_Abuse.py` `analyze_logic` (lines 65-97). -/

def outgoingDirs : List String := ["MO", "OUTGOING", "1", "CALL OUT"]

/-- Lines 75-79: outgoing direction and called number starting with any prefix. -/
def tollfree_calls (df : List CallRow) (pres : List String) : List CallRow :=
  df.filter (fun r =>
    outgoingDirs.contains (pyUpper r.call_direction) && startsWithAny pres r.called_number)

/-- `dt.date` on an epoch-seconds timestamp: the calendar-day index. -/
def call_date (t : Nat) : Nat := t / 86400

def daily_counts (df : List CallRow) (pres : List String) : List ((String × Nat) × Nat) :=
  groupCounts ((tollfree_calls df pres).map (fun r => (r.calling_number, call_date r.start_time)))

/-- Lines 89-91: strict `>` threshold, sorted by count descending. -/
def abusive_users (df : List CallRow) (threshold : Nat) (pres : List String) :
    List ((String × Nat) × Nat) :=
  sortCountDesc ((daily_counts df pres).filter (fun p => p.2 > threshold))

/-- Lines 94-95: `value_counts().head(10)` over the toll-free called numbers. -/
def top_targets (df : List CallRow) (pres : List String) : List (String × Nat) :=
  (sortCountDesc (groupCounts ((tollfree_calls df pres).map (fun r => r.called_number)))).take 10

def analyze_logic (df : List CallRow) (threshold : Nat) (prefixesStr : String) :
    List ((String × Nat) × Nat) × List (String × Nat) :=
  let pres := parsePrefixList prefixesStr
  if (tollfree_calls df pres).isEmpty then ([], [])
  else (abusive_users df threshold pres, top_targets df pres)

/-- The true (caller, day) group size among the selected toll-free calls. -/
def dailyCountOf (df : List CallRow) (pres : List String) (k : String × Nat) : Nat :=
  @List.count (String × Nat) instBEqOfDecidableEq k
    ((tollfree_calls df pres).map (fun r => (r.calling_number, call_date r.start_time)))

/-- The true dial count of one destination among the selected toll-free calls. -/
def dialCount (df : List CallRow) (pres : List String) (b : String) : Nat :=
  ((tollfree_calls df pres).map (fun r => r.called_number)).count b

end AnomalyzeWeb.TollFree

namespace AnomalyzeWeb.SimSwap

/-! Embedding of `SIM_Swapping.py` `parse_cdr` (lines 41-52) and
`analyze_logic` (lines 63-109). -/

/-- A raw row before type coercion: every relevant column may hold a null. -/
structure SimRaw where
  imsi : Option String
  imei : Option String
  calling_number : Option String
  called_number : Option String
  start_time : Option String
deriving DecidableEq

/-- A row surviving `parse_cdr`'s `dropna`: all required fields present,
`start_time` parsed to an epoch count. -/
structure SimRow where
  imsi : String
  imei : String
  calling_number : String
  called_number : String
  start_time : Nat
deriving DecidableEq

/-- Python `astype(str)` renders a null as the string "nan" — no longer null. -/
def pyStrOpt : Option String → String
  | none => "nan"
  | some s => s

/-- Lines 48-50: `astype(str).str.replace(r"\.0$", "", regex=True)`. -/
def cleanId (o : Option String) : String := stripDot0 (pyStrOpt o)

/-- `parse_cdr` for `SIM_Swapping.py`, with `pd.to_datetime(.., errors='coerce')`
abstracted as the parse function `pt` (unparsable ⇒ `none` ⇒ NaT).  The five-way
match is the `dropna(subset=REQUIRED_COLUMNS)` null test on the coerced columns:
`imsi`, `imei`, `called_number` were stringified (never null), `calling_number`
was not, `start_time` is the coercion result. -/
def parse_cdr (pt : String → Option Nat) (df : List SimRaw) : List SimRow :=
  df.filterMap (fun r =>
    let st : Option Nat := r.start_time.bind pt
    let imsiC : Option String := some (cleanId r.imsi)
    let imeiC : Option String := some (cleanId r.imei)
    let calledC : Option String := some (cleanId r.called_number)
    let callingC : Option String := r.calling_number
    match imsiC, imeiC, callingC, calledC, st with
    | some a, some b, some c, some d, some t =>
      some { imsi := a, imei := b, calling_number := c, called_number := d, start_time := t }
    | _, _, _, _, _ => none)

/-- The rows `parse_cdr` actually keeps: parseable timestamp, non-null caller. -/
def keepsRow (pt : String → Option Nat) (r : SimRaw) : Bool :=
  (r.start_time.bind pt).isSome && r.calling_number.isSome

/-- The coercion applied to a kept row. -/
def coerceRow (pt : String → Option Nat) (r : SimRaw) : SimRow :=
  { imsi := cleanId r.imsi, imei := cleanId r.imei,
    calling_number := (r.calling_number).getD "nan",
    called_number := cleanId r.called_number,
    start_time := ((r.start_time.bind pt)).getD 0 }

/-- `calculate_jaccard_similarity` (lines 55-61): 0 on an empty operand, else
intersection size over union size. -/
def calculate_jaccard_similarity (a b : Finset String) : ℚ :=
  if a = ∅ ∨ b = ∅ then 0
  else ((a ∩ b).card : ℚ) / ((a ∪ b).card : ℚ)

/-- Logic A (lines 72-73): distinct IMSIs per IMEI. -/
def nuniqueImsis (df : List SimRow) (e : String) : Nat :=
  (((df.filter (fun r => r.imei == e)).map (fun r => r.imsi)).dedup).length

def imei_counts (df : List SimRow) : List (String × Nat) :=
  (df.map (fun r => r.imei)).dedup.map (fun e => (e, nuniqueImsis df e))

def imei_swaps (df : List SimRow) : List (String × Nat) :=
  (imei_counts df).filter (fun p => p.2 > 1)

/-- `dt.floor(time_window)` with a bucket width of `w` epoch units, `w > 0`. -/
def time_bucket (w t : Nat) : Nat := t / w * w

/-- The distinct (imsi, bucket) keys of the `signatures` groupby. -/
def sigKeys (w : Nat) (df : List SimRow) : List (String × Nat) :=
  (df.map (fun r => (r.imsi, time_bucket w r.start_time))).dedup

/-- The calling signature of one (imsi, bucket) group: its set of called numbers. -/
def sigSet (w : Nat) (df : List SimRow) (k : String × Nat) : Finset String :=
  ((df.filter (fun r => r.imsi == k.1 && time_bucket w r.start_time == k.2)).map
    (fun r => r.called_number)).toFinset

def signatures (w : Nat) (df : List SimRow) : List ((String × Nat) × Finset String) :=
  (sigKeys w df).map (fun k => (k, sigSet w df k))

def buckets (w : Nat) (df : List SimRow) : List Nat :=
  ((sigKeys w df).map (fun k => k.2)).dedup

def bucketGroup (w : Nat) (df : List SimRow) (b : Nat) :
    List ((String × Nat) × Finset String) :=
  (signatures w df).filter (fun p => p.1.2 == b)

/-- Ordered pairs (i before j) of a list — the `for i ... for j in range(i+1, ...)`
double loop of lines 94-95. -/
def listPairs {α : Type} : List α → List (α × α)
  | [] => []
  | x :: xs => xs.map (fun y => (x, y)) ++ listPairs xs

/-- Python `round(x, 2)` (round half to even), on exact rationals. -/
def roundHalfEven (q : ℚ) : ℤ :=
  if q - ⌊q⌋ < 1/2 then ⌊q⌋
  else if 1/2 < q - ⌊q⌋ then ⌊q⌋ + 1
  else if ⌊q⌋ % 2 = 0 then ⌊q⌋ else ⌊q⌋ + 1

def round2 (q : ℚ) : ℚ := (roundHalfEven (q * 100) : ℚ) / 100

structure PatternFinding where
  time_window : Nat
  imsi_1 : String
  imsi_2 : String
  similarity_score : ℚ
  common_contacts : Finset String
deriving DecidableEq

/-- Logic B (lines 75-107): per time bucket, pairwise Jaccard similarity of the
IMSI signatures; pairs scoring at least the threshold are recorded. -/
def pattern_findings (w : Nat) (θ : ℚ) (df : List SimRow) : List PatternFinding :=
  (buckets w df).flatMap (fun b =>
    if (bucketGroup w df b).length < 2 then []
    else (listPairs (bucketGroup w df b)).filterMap (fun pq =>
      if calculate_jaccard_similarity pq.1.2 pq.2.2 ≥ θ then
        some { time_window := b, imsi_1 := pq.1.1.1, imsi_2 := pq.2.1.1,
               similarity_score := round2 (calculate_jaccard_similarity pq.1.2 pq.2.2),
               common_contacts := pq.1.2 ∩ pq.2.2 }
      else none))

def analyze_logic (w : Nat) (θ : ℚ) (df : List SimRow) :
    List (String × Nat) × List PatternFinding :=
  (imei_swaps df, pattern_findings w θ df)

/-- Concrete dataset used to witness the pattern-similarity rule: two IMSIs
active in the same 30-minute bucket with identical called-number sets of size 3. -/
def patternWitnessDf : List SimRow :=
  [⟨"A", "E", "1", "201", 100⟩, ⟨"A", "E", "1", "202", 200⟩,
   ⟨"A", "E", "1", "203", 300⟩, ⟨"B", "F", "2", "201", 400⟩,
   ⟨"B", "F", "2", "202", 500⟩, ⟨"B", "F", "2", "203", 600⟩]

/-- The true number of distinct IMSIs observed with a given IMEI. -/
def trueDistinctImsis (df : List SimRow) (e : String) : Nat :=
  ((df.filter (fun r => r.imei == e)).map (fun r => r.imsi)).toFinset.card

/-- An IMSI has activity in a bucket. -/
def activeIn (w : Nat) (df : List SimRow) (a : String) (b : Nat) : Prop :=
  ∃ r ∈ df, r.imsi = a ∧ time_bucket w r.start_time = b

end AnomalyzeWeb.SimSwap

namespace AnomalyzeWeb.TowerJump

/-! Embedding of `Tower_Jumping.py` `analyze_logic` (lines 78-116).  The haversine
distance (floating-point trigonometry, lines 60-76) is abstracted as the parameter
`dist`; every flagging property below is about how the mask of line 101 uses it. -/

structure TJRow where
  imsi : String
  start_time : Int
  latitude : ℚ
  longitude : ℚ
  cell_id : String
deriving DecidableEq, Inhabited

/-- Lexicographic code-point comparison (how pandas orders the string keys). -/
def strLTb : List Char → List Char → Bool
  | _, [] => false
  | [], _ :: _ => true
  | c :: cs, d :: ds =>
    if c.toNat < d.toNat then true
    else if d.toNat < c.toNat then false
    else strLTb cs ds

/-- `sort_values(by=['imsi', 'start_time'])` comparison. -/
def tjLE (a b : TJRow) : Prop :=
  strLTb a.imsi.data b.imsi.data = true ∨ (a.imsi = b.imsi ∧ a.start_time ≤ b.start_time)

instance : DecidableRel tjLE := fun a b => by
  unfold tjLE
  infer_instance

def sortRecords (df : List TJRow) : List TJRow := List.insertionSort tjLE df

/-- `groupby('imsi').shift(1)` on the sorted frame: the latest earlier row with the
same imsi — the immediate predecessor within the imsi group. -/
def prevIdx (l : List TJRow) (i : Nat) : Option Nat :=
  ((List.range i).filter
    (fun j => (l.getD j default).imsi == (l.getD i default).imsi)).getLast?

/-- Line 93: elapsed time in minutes between two rows (epoch seconds / 60). -/
def elapsedMin (p c : TJRow) : ℚ := ((c.start_time - p.start_time : Int) : ℚ) / 60

/-- The mask of line 101 at row `i`: no predecessor ⇒ NaN comparisons ⇒ `False`;
otherwise distance ≥ `minDist` and `0 ≤ elapsed ≤ maxTime`. -/
def tjFlag (dist : TJRow → TJRow → ℚ) (minDist maxTime : ℚ) (l : List TJRow)
    (i : Nat) : Bool :=
  match prevIdx l i with
  | none => false
  | some j =>
    let p := l.getD j default
    let c := l.getD i default
    decide (dist p c ≥ minDist) && decide (elapsedMin p c ≤ maxTime) &&
      decide (elapsedMin p c ≥ 0)

def flaggedIndices (dist : TJRow → TJRow → ℚ) (minDist maxTime : ℚ)
    (l : List TJRow) : List Nat :=
  (List.range l.length).filter (tjFlag dist minDist maxTime l)

structure TJFinding where
  imsi : String
  start_time : Int
  from_cell_id : String
  to_cell_id : String
  jump_distance_km : ℚ
  time_gap_minutes : ℚ
deriving DecidableEq, Inhabited

/-- `analyze_logic`: sort, compute the mask, and report each flagged transition. -/
def analyze_logic (dist : TJRow → TJRow → ℚ) (df : List TJRow)
    (minDist maxTime : ℚ) : List TJFinding :=
  let l := sortRecords df
  (flaggedIndices dist minDist maxTime l).map (fun i =>
    match prevIdx l i with
    | some j =>
      let p := l.getD j default
      let c := l.getD i default
      { imsi := c.imsi, start_time := c.start_time, from_cell_id := p.cell_id,
        to_cell_id := c.cell_id, jump_distance_km := dist p c,
        time_gap_minutes := elapsedMin p c }
    | none => default)

end AnomalyzeWeb.TowerJump

namespace AnomalyzeWeb

/-! ### Shared helper lemmas -/

theorem mem_groupCounts_iff {K : Type} [DecidableEq K] (l : List K) (k : K) (n : Nat) :
    (k, n) ∈ groupCounts l ↔ n = l.count k ∧ 0 < l.count k := by
  unfold groupCounts
  simp only [List.mem_map, List.mem_dedup]
  constructor
  · rintro ⟨a, ha, heq⟩
    obtain ⟨h1, h2⟩ := Prod.mk.injEq .. ▸ heq
    subst h1; subst h2
    exact ⟨rfl, List.count_pos_iff.mpr ha⟩
  · rintro ⟨hn, hpos⟩
    exact ⟨k, List.count_pos_iff.mp hpos, by rw [hn]⟩

theorem mem_sortCountDesc {K : Type} (l : List (K × Nat)) (p : K × Nat) :
    p ∈ sortCountDesc l ↔ p ∈ l :=
  (List.perm_insertionSort (fun a b => b.2 ≤ a.2) l).mem_iff

theorem sortCountDesc_pairwise {K : Type} (l : List (K × Nat)) :
    (sortCountDesc l).Pairwise (fun a b => b.2 ≤ a.2) := by
  haveI : IsTotal (K × Nat) (fun a b => b.2 ≤ a.2) := ⟨fun a b => Nat.le_total b.2 a.2⟩
  haveI : IsTrans (K × Nat) (fun a b => b.2 ≤ a.2) := ⟨fun a b c hab hbc => le_trans hbc hab⟩
  exact List.sorted_insertionSort _ l

theorem two_le_length_of_mem_ne {α : Type} {l : List α} {x y : α}
    (hx : x ∈ l) (hy : y ∈ l) (hne : x ≠ y) : 2 ≤ l.length := by
  match l with
  | [] => cases hx
  | [a] =>
    simp only [List.mem_singleton] at hx hy
    exact absurd (hx.trans hy.symm) hne
  | a :: b :: t => simp only [List.length_cons]; omega

end AnomalyzeWeb

namespace AnomalyzeWeb

/-! ### Claim C8: Jaccard similarity algebra -/

/-- Claim C8: for the SIM-Swap detector's Jaccard similarity function, the
similarity of a non-empty set with itself is exactly 1; the similarity of any
pair with an empty operand is 0; and every returned value lies in [0, 1]. -/
theorem jaccard_similarity_properties :
    (∀ s : Finset String, s ≠ ∅ → SimSwap.calculate_jaccard_similarity s s = 1) ∧
    (∀ a b : Finset String, a = ∅ ∨ b = ∅ → SimSwap.calculate_jaccard_similarity a b = 0) ∧
    (∀ a b : Finset String, 0 ≤ SimSwap.calculate_jaccard_similarity a b ∧
      SimSwap.calculate_jaccard_similarity a b ≤ 1) := by
  refine ⟨?_, ?_, ?_⟩
  · intro s hs
    unfold SimSwap.calculate_jaccard_similarity
    rw [if_neg (by simp [hs])]
    rw [Finset.inter_self, Finset.union_self]
    have hpos : 0 < s.card := Finset.card_pos.mpr (Finset.nonempty_iff_ne_empty.mpr hs)
    have : (s.card : ℚ) ≠ 0 := by positivity
    exact div_self this
  · intro a b h
    unfold SimSwap.calculate_jaccard_similarity
    rw [if_pos h]
  · intro a b
    unfold SimSwap.calculate_jaccard_similarity
    by_cases h : a = ∅ ∨ b = ∅
    · rw [if_pos h]; norm_num
    · rw [if_neg h]
      push_neg at h
      have hne : a.Nonempty := Finset.nonempty_iff_ne_empty.mpr h.1
      have hu : 0 < (a ∪ b).card :=
        Finset.card_pos.mpr (hne.mono Finset.subset_union_left)
      have hupos : (0 : ℚ) < ((a ∪ b).card : ℚ) := by exact_mod_cast hu
      constructor
      · apply div_nonneg <;> positivity
      · rw [div_le_one hupos]
        exact_mod_cast Finset.card_le_card Finset.inter_subset_union

theorem jaccard_similarity_properties_witness :
    SimSwap.calculate_jaccard_similarity {"a"} {"a"} = 1 ∧
    SimSwap.calculate_jaccard_similarity ∅ {"a"} = 0 ∧
    (0 ≤ SimSwap.calculate_jaccard_similarity {"a", "b"} {"b", "c"} ∧
      SimSwap.calculate_jaccard_similarity {"a", "b"} {"b", "c"} ≤ 1) :=
  ⟨jaccard_similarity_properties.1 {"a"} (by decide),
   jaccard_similarity_properties.2.1 ∅ {"a"} (Or.inl rfl),
   jaccard_similarity_properties.2.2 {"a", "b"} {"b", "c"}⟩

/-! ### Claim C6: missing-column validation aborts the run -/

/-- Claim C6: for every detector (each module runs this same `validate_input`
against its own required-column list), a record set lacking some required
canonical field after normalization makes validation fail with exactly the set
of missing names, and the composed detector run yields no findings at all;
when every required field is present, validation returns the record set
unchanged. -/
theorem validator_missing_columns (required : List String) (df : DataFrame) :
    ((required.filter (fun c => !(df.columns.contains c))) ≠ [] →
      validate_input required df =
        Except.error (required.filter (fun c => !(df.columns.contains c))) ∧
      (∀ c, c ∈ required.filter (fun c => !(df.columns.contains c)) ↔
        c ∈ required ∧ c ∉ df.columns) ∧
      (∀ (F : Type) (analyze : DataFrame → F),
        runDetector analyze required df =
          Except.error (required.filter (fun c => !(df.columns.contains c))))) ∧
    ((∀ c ∈ required, c ∈ df.columns) → validate_input required df = Except.ok df) := by
  constructor
  · intro hmiss
    have hval : validate_input required df =
        Except.error (required.filter (fun c => !(df.columns.contains c))) := by
      unfold validate_input
      rw [if_neg (by simpa [List.isEmpty_iff] using hmiss)]
    refine ⟨hval, ?_, ?_⟩
    · intro c
      simp [List.mem_filter, List.elem_iff]
    · intro F analyze
      unfold runDetector
      rw [hval]
      rfl
  · intro hall
    unfold validate_input
    rw [if_pos]
    rw [List.isEmpty_iff, List.filter_eq_nil_iff]
    intro c hc
    simp [List.elem_iff, hall c hc]

theorem validator_missing_columns_witness :
    validate_input requiredCallSpikes
        ⟨[("calling_number", []), ("called_number", [])]⟩ =
      Except.error ["start_time", "call_direction"] ∧
    validate_input requiredTowerJump
        ⟨[("imsi", []), ("start_time", []), ("latitude", []),
          ("longitude", []), ("cell_id", [])]⟩ =
      Except.ok ⟨[("imsi", []), ("start_time", []), ("latitude", []),
          ("longitude", []), ("cell_id", [])]⟩ :=
  ⟨((validator_missing_columns requiredCallSpikes
      ⟨[("calling_number", []), ("called_number", [])]⟩).1 (by decide)).1,
   (validator_missing_columns requiredTowerJump
      ⟨[("imsi", []), ("start_time", []), ("latitude", []),
        ("longitude", []), ("cell_id", [])]⟩).2 (by decide)⟩

/-! ### Claim C4: IMEI-reuse structural rule -/

/-- Claim C4: in the SIM-Swap detector's device-reuse method, an imei observed
with exactly one distinct imsi never appears in the findings, while an imei
observed with two or more distinct imsi values always appears, reported with
`unique_imsis` equal to the true distinct-imsi count. -/
theorem imei_reuse_rule (df : List SimSwap.SimRow) (e : String) :
    (SimSwap.trueDistinctImsis df e = 1 →
      ∀ p ∈ SimSwap.imei_swaps df, p.1 ≠ e) ∧
    (2 ≤ SimSwap.trueDistinctImsis df e →
      (e, SimSwap.trueDistinctImsis df e) ∈ SimSwap.imei_swaps df) := by
  have hbridge : SimSwap.nuniqueImsis df e = SimSwap.trueDistinctImsis df e := by
    unfold SimSwap.nuniqueImsis SimSwap.trueDistinctImsis
    rw [List.card_toFinset]
  constructor
  · intro h1 p hp hpe
    unfold SimSwap.imei_swaps at hp
    rw [List.mem_filter] at hp
    obtain ⟨hpc, hgt⟩ := hp
    unfold SimSwap.imei_counts at hpc
    rw [List.mem_map] at hpc
    obtain ⟨k, _, hk⟩ := hpc
    have hk1 : k = p.1 := by rw [← hk]
    have hk2 : p.2 = SimSwap.nuniqueImsis df k := by rw [← hk]
    rw [hk2, hk1, hpe, hbridge, h1] at hgt
    simp at hgt
  · intro h2
    have hnu : 2 ≤ SimSwap.nuniqueImsis df e := hbridge ▸ h2
    have hex : ∃ r ∈ df, r.imei = e := by
      by_contra hno
      push_neg at hno
      have : df.filter (fun r => r.imei == e) = [] := by
        rw [List.filter_eq_nil_iff]
        intro r hr
        simpa using hno r hr
      unfold SimSwap.nuniqueImsis at hnu
      rw [this] at hnu
      simp at hnu
    obtain ⟨r, hr, hre⟩ := hex
    unfold SimSwap.imei_swaps
    rw [List.mem_filter]
    constructor
    · unfold SimSwap.imei_counts
      rw [List.mem_map]
      refine ⟨e, ?_, by rw [hbridge]⟩
      rw [List.mem_dedup, List.mem_map]
      exact ⟨r, hr, hre⟩
    · simp only [decide_eq_true_eq]
      omega

theorem imei_reuse_rule_witness :
    ("E1", 2) ∈ SimSwap.imei_swaps
      [⟨"imsiA", "E1", "111", "201", 100⟩, ⟨"imsiB", "E1", "112", "201", 200⟩,
       ⟨"imsiA", "E2", "111", "202", 100⟩] ∧
    (∀ p ∈ SimSwap.imei_swaps
      [⟨"imsiA", "E1", "111", "201", 100⟩, ⟨"imsiB", "E1", "112", "201", 200⟩,
       ⟨"imsiA", "E2", "111", "202", 100⟩], p.1 ≠ "E2") :=
  ⟨(imei_reuse_rule _ "E1").2 (by decide), (imei_reuse_rule _ "E2").1 (by decide)⟩

end AnomalyzeWeb

namespace AnomalyzeWeb

/-! ### Claim C9: normalization is a no-op on canonical columns -/

theorem buildRename_self {colmap : List (String × List String)} {cols : List String}
    (hgood : goodColumnMap colmap = true)
    (hcanon : ∀ c ∈ cols, ∃ p ∈ colmap, p.1 = c) :
    ∀ e ∈ buildRename colmap cols, e.1 = e.2 := by
  intro e he
  unfold buildRename at he
  rw [List.mem_filterMap] at he
  obtain ⟨p, hp, hpe⟩ := he
  rw [Option.map_eq_some'] at hpe
  obtain ⟨src, hsrc, hes⟩ := hpe
  unfold firstVariantMatch at hsrc
  obtain ⟨v, hv, hdf⟩ := List.exists_of_findSome?_eq_some hsrc
  unfold dfColsLookup at hdf
  have hmem := List.mem_of_mem_getLast? hdf
  rw [List.mem_filter] at hmem
  obtain ⟨hsrccols, hkey⟩ := hmem
  have hkeyeq : normKey src = normKey v := by simpa using hkey
  obtain ⟨q, hq, hq1⟩ := hcanon src hsrccols
  unfold goodColumnMap at hgood
  rw [List.all_eq_true] at hgood
  have h1 := hgood p hp
  rw [List.all_eq_true] at h1
  have h2 := h1 v hv
  rw [List.all_eq_true] at h2
  have h3 := h2 q hq
  rw [Bool.or_eq_true] at h3
  have hkv : normKey v = normKey q.1 := by rw [hq1, ← hkeyeq]
  cases h3 with
  | inl h =>
    rw [bne_iff_ne] at h
    exact absurd hkv h
  | inr h =>
    have hq1p : q.1 = p.1 := by simpa using h
    rw [← hes]
    simp only
    rw [← hq1p, hq1]

theorem normalize_canonical_fixed (colmap : List (String × List String)) (df : DataFrame)
    (hgood : goodColumnMap colmap = true)
    (hcanon : ∀ c ∈ df.columns, ∃ p ∈ colmap, p.1 = c) :
    normalize_columns df colmap = df := by
  unfold normalize_columns
  have hself := buildRename_self hgood hcanon
  have hlook : ∀ k : String,
      lookupLast (buildRename colmap df.columns) k = none ∨
      lookupLast (buildRename colmap df.columns) k = some k := by
    intro k
    unfold lookupLast
    cases hl : ((buildRename colmap df.columns).filter (fun e => e.1 == k)).getLast? with
    | none => left; rfl
    | some e =>
      right
      have hm := List.mem_of_mem_getLast? hl
      rw [List.mem_filter] at hm
      have h1 : e.1 = k := by simpa using hm.2
      have h2 : e.1 = e.2 := hself e hm.1
      simp [hl, ← h2, h1]
  cases df with
  | mk cols =>
    simp only [DataFrame.mk.injEq]
    have : ∀ p ∈ cols,
        ((lookupLast (buildRename colmap (DataFrame.mk cols).columns) p.1).getD p.1, p.2) =
          p := by
      intro p _
      cases hlook p.1 with
      | inl h => rw [h]; rfl
      | inr h => rw [h]; rfl
    calc cols.map _ = cols.map id := List.map_congr_left this
    _ = cols := List.map_id cols

/-- Claim C9: column normalization is idempotent — for any record set whose
columns are already canonical names of the column map (the shape produced by a
previous normalization), applying `normalize_columns` with the same
`CDR_COLUMN_MAP` of this repository changes nothing: names and values are
identical. -/
theorem normalize_columns_idempotent (colmap : List (String × List String))
    (df : DataFrame) (hmap : colmap ∈ cdrColumnMaps)
    (hcanon : ∀ c ∈ df.columns, ∃ p ∈ colmap, p.1 = c) :
    normalize_columns df colmap = df := by
  have hgood : goodColumnMap colmap = true := by
    unfold cdrColumnMaps at hmap
    simp only [List.mem_cons, List.not_mem_nil, or_false] at hmap
    rcases hmap with h | h | h | h | h <;> (subst h; decide)
  exact normalize_canonical_fixed colmap df hgood hcanon

theorem normalize_columns_idempotent_witness :
    normalize_columns
      ⟨[("calling_number", ["91999"]), ("called_number", ["4411"]),
        ("start_time", ["2024-01-01"]), ("call_direction", ["MO"])]⟩
      callSpikesColumnMap =
    ⟨[("calling_number", ["91999"]), ("called_number", ["4411"]),
      ("start_time", ["2024-01-01"]), ("call_direction", ["MO"])]⟩ :=
  normalize_columns_idempotent callSpikesColumnMap
    ⟨[("calling_number", ["91999"]), ("called_number", ["4411"]),
      ("start_time", ["2024-01-01"]), ("call_direction", ["MO"])]⟩
    (by simp [cdrColumnMaps]) (by decide)

end AnomalyzeWeb

namespace AnomalyzeWeb

/-! ### Claim C1: strict international-call threshold -/

theorem CallSpikes.intl_calls_eq (df : List CallRow) :
    CallSpikes.intl_calls df = df.filter CallSpikes.qualifies := by
  unfold CallSpikes.intl_calls CallSpikes.outgoing CallSpikes.qualifies
  rw [List.filter_filter]
  apply List.filter_congr
  intro r _
  exact Bool.and_comm _ _

theorem CallSpikes.mem_intl_suspects_iff (df : List CallRow) (a : String) (n θ : Nat) :
    (a, n) ∈ CallSpikes.intl_suspects df θ ↔
      n = CallSpikes.qualCount df a ∧ 0 < n ∧ θ < n := by
  unfold CallSpikes.intl_suspects CallSpikes.intl_counts
  rw [CallSpikes.intl_calls_eq, List.mem_filter]
  rw [mem_groupCounts_iff]
  unfold CallSpikes.qualCount
  simp only [decide_eq_true_eq]
  constructor
  · rintro ⟨⟨h1, h2⟩, h3⟩
    exact ⟨h1, h1 ▸ h2, h3⟩
  · rintro ⟨h1, h2, h3⟩
    exact ⟨⟨h1, h1 ▸ h2⟩, h3⟩

theorem CallSpikes.outgoing_ne_nil_of_qualifies {df : List CallRow} {r : CallRow}
    (hr : r ∈ df) (hq : CallSpikes.qualifies r = true) :
    (CallSpikes.outgoing df).isEmpty = false := by
  unfold CallSpikes.qualifies at hq
  rw [Bool.and_eq_true] at hq
  have hout : r ∈ CallSpikes.outgoing df := by
    unfold CallSpikes.outgoing
    rw [List.mem_filter]
    exact ⟨hr, hq.1⟩
  rw [List.isEmpty_eq_false]
  intro he
  rw [he] at hout
  cases hout

theorem CallSpikes.qualCount_pos_witness_row (df : List CallRow) (a : String)
    (h : 0 < CallSpikes.qualCount df a) :
    ∃ r ∈ df, CallSpikes.qualifies r = true := by
  unfold CallSpikes.qualCount at h
  rw [List.count_pos_iff, List.mem_map] at h
  obtain ⟨r, hr, _⟩ := h
  rw [List.mem_filter] at hr
  exact ⟨r, hr.1, hr.2⟩

theorem StrangeSim.ss_intl_calls_eq (df : List CallRow) :
    StrangeSim.intl_calls df = df.filter StrangeSim.qualifies := by
  unfold StrangeSim.intl_calls StrangeSim.outgoing StrangeSim.qualifies
  rw [List.filter_filter]
  apply List.filter_congr
  intro r _
  exact Bool.and_comm _ _

theorem StrangeSim.mem_suspects_iff (df : List CallRow) (a : String) (n θ : Nat) :
    (a, n) ∈ (StrangeSim.call_counts df).filter (fun p => p.2 > θ) ↔
      n = StrangeSim.qualCount df a ∧ 0 < n ∧ θ < n := by
  unfold StrangeSim.call_counts
  rw [StrangeSim.ss_intl_calls_eq, List.mem_filter]
  rw [mem_groupCounts_iff]
  unfold StrangeSim.qualCount
  simp only [decide_eq_true_eq]
  constructor
  · rintro ⟨⟨h1, h2⟩, h3⟩
    exact ⟨h1, h1 ▸ h2, h3⟩
  · rintro ⟨h1, h2, h3⟩
    exact ⟨⟨h1, h1 ▸ h2⟩, h3⟩

theorem StrangeSim.ss_outgoing_ne_nil_of_qualifies {df : List CallRow} {r : CallRow}
    (hr : r ∈ df) (hq : StrangeSim.qualifies r = true) :
    (StrangeSim.outgoing df).isEmpty = false := by
  unfold StrangeSim.qualifies at hq
  rw [Bool.and_eq_true] at hq
  have hout : r ∈ StrangeSim.outgoing df := by
    unfold StrangeSim.outgoing
    rw [List.mem_filter]
    exact ⟨hr, hq.1⟩
  rw [List.isEmpty_eq_false]
  intro he
  rw [he] at hout
  cases hout

theorem StrangeSim.ss_qualCount_pos_row (df : List CallRow) (a : String)
    (h : 0 < StrangeSim.qualCount df a) :
    ∃ r ∈ df, StrangeSim.qualifies r = true := by
  unfold StrangeSim.qualCount at h
  rw [List.count_pos_iff, List.mem_map] at h
  obtain ⟨r, hr, _⟩ := h
  rw [List.mem_filter] at hr
  exact ⟨r, hr.1, hr.2⟩

/-- Claim C1: in the international-call scoring of the Call-Volume detector
(`Call_Spikes.analyze_logic`, outgoing ∧ not starting with "91") and of the
Strange-SIM detector (`Strange_sim_use.analyze_logic`, outgoing ∧ not starting
with "91" ∧ length > 6), a caller with exactly threshold + 1 qualifying calls
appears in the findings with count threshold + 1, and a caller with exactly
threshold qualifying calls does not appear: the comparison is a strict `>`. -/
theorem international_threshold_strict (csDf ssDf : List CallRow) (a : String)
    (θ θs : Nat) :
    ((CallSpikes.qualCount csDf a = θ + 1 →
        (a, θ + 1) ∈ (CallSpikes.analyze_logic csDf θ θs).1) ∧
     (CallSpikes.qualCount csDf a = θ →
        ∀ p ∈ (CallSpikes.analyze_logic csDf θ θs).1, p.1 ≠ a)) ∧
    ((StrangeSim.qualCount ssDf a = θ + 1 →
        (a, θ + 1) ∈ StrangeSim.analyze_logic ssDf θ) ∧
     (StrangeSim.qualCount ssDf a = θ →
        ∀ p ∈ StrangeSim.analyze_logic ssDf θ, p.1 ≠ a)) := by
  refine ⟨⟨?_, ?_⟩, ?_, ?_⟩
  · intro h
    obtain ⟨r, hr, hq⟩ := CallSpikes.qualCount_pos_witness_row csDf a (by omega)
    unfold CallSpikes.analyze_logic
    rw [if_neg (by rw [CallSpikes.outgoing_ne_nil_of_qualifies hr hq]; simp)]
    exact (CallSpikes.mem_intl_suspects_iff csDf a (θ + 1) θ).mpr ⟨h.symm, by omega, by omega⟩
  · intro h p hp hpa
    unfold CallSpikes.analyze_logic at hp
    by_cases hc : (CallSpikes.outgoing csDf).isEmpty
    · rw [if_pos hc] at hp; cases hp
    · rw [if_neg hc] at hp
      have hp2 : (p.1, p.2) ∈ CallSpikes.intl_suspects csDf θ := by
        rwa [Prod.mk.eta]
      obtain ⟨h1, _, h3⟩ := (CallSpikes.mem_intl_suspects_iff csDf p.1 p.2 θ).mp hp2
      rw [hpa, h] at h1
      omega
  · intro h
    obtain ⟨r, hr, hq⟩ := StrangeSim.ss_qualCount_pos_row ssDf a (by omega)
    unfold StrangeSim.analyze_logic
    rw [if_neg (by rw [StrangeSim.ss_outgoing_ne_nil_of_qualifies hr hq]; simp)]
    rw [mem_sortCountDesc]
    exact (StrangeSim.mem_suspects_iff ssDf a (θ + 1) θ).mpr ⟨h.symm, by omega, by omega⟩
  · intro h p hp hpa
    unfold StrangeSim.analyze_logic at hp
    by_cases hc : (StrangeSim.outgoing ssDf).isEmpty
    · rw [if_pos hc] at hp; cases hp
    · rw [if_neg hc, mem_sortCountDesc] at hp
      have hp2 : (p.1, p.2) ∈ (StrangeSim.call_counts ssDf).filter (fun p => p.2 > θ) := by
        rwa [Prod.mk.eta]
      obtain ⟨h1, _, h3⟩ := (StrangeSim.mem_suspects_iff ssDf p.1 p.2 θ).mp hp2
      rw [hpa, h] at h1
      omega

theorem international_threshold_strict_witness :
    ("A", 2) ∈ (CallSpikes.analyze_logic
      [⟨"A", "4412345678", "MO", 10⟩, ⟨"A", "4412345678", "MO", 20⟩] 1 5).1 ∧
    ("A", 2) ∈ StrangeSim.analyze_logic
      [⟨"A", "4412345678", "MO", 10⟩, ⟨"A", "4412345678", "MO", 20⟩] 1 :=
  ⟨(international_threshold_strict
      [⟨"A", "4412345678", "MO", 10⟩, ⟨"A", "4412345678", "MO", 20⟩]
      [⟨"A", "4412345678", "MO", 10⟩, ⟨"A", "4412345678", "MO", 20⟩] "A" 1 5).1.1
      (by decide),
   (international_threshold_strict
      [⟨"A", "4412345678", "MO", 10⟩, ⟨"A", "4412345678", "MO", 20⟩]
      [⟨"A", "4412345678", "MO", 10⟩, ⟨"A", "4412345678", "MO", 20⟩] "A" 1 5).2.1
      (by decide)⟩

/-! ### Claim C3 (corrected): the Call-Volume & Spike detector's direction set -/

/-- Claim C3, counterexample: the claim states that the Call-Volume & Spike
detector accepts call_direction "1"; in `Call_Spikes.py` line 53 the accepted
set is only {"MO", "OUTGOING", "CALL OUT"}, so a record with direction "1" is
filtered out and contributes to neither scoring — here a single such record
with one international call and thresholds 0 would have to be flagged were the
claim true, yet both findings are empty. -/
theorem callvolume_direction_one_counterexample :
    CallSpikes.outgoingDirs.contains "1" = false ∧
    pyUpper "1" = "1" ∧
    CallSpikes.outgoing [⟨"111", "4412345678", "1", 0⟩] = [] ∧
    (CallSpikes.analyze_logic [⟨"111", "4412345678", "1", 0⟩] 0 0).1 = [] ∧
    (CallSpikes.analyze_logic [⟨"111", "4412345678", "1", 0⟩] 0 0).2 = [] := by
  refine ⟨by decide, by decide, by decide, by decide, by decide⟩

theorem CallSpikes.outgoing_cons_excluded {r : CallRow} (df : List CallRow)
    (h : CallSpikes.outgoingDirs.contains (pyUpper r.call_direction) = false) :
    CallSpikes.outgoing (r :: df) = CallSpikes.outgoing df := by
  unfold CallSpikes.outgoing
  rw [List.filter_cons, if_neg (by rw [h]; simp)]

/-- Claim C3, amended: the Call-Volume & Spike detector filters to outgoing
records by testing call_direction case-insensitively against the fixed set
{"MO", "OUTGOING", "CALL OUT"} — which does NOT include "1" — so a record
whose call_direction is "1" is excluded from both the international-call and
hourly-spike scorings of that detector (prepending such a record changes
neither output). -/
theorem callvolume_direction_filter (df : List CallRow) (r : CallRow) (θi θs : Nat) :
    (r ∈ CallSpikes.outgoing df ↔
      r ∈ df ∧ CallSpikes.outgoingDirs.contains (pyUpper r.call_direction) = true) ∧
    (pyUpper r.call_direction = "1" →
      CallSpikes.analyze_logic (r :: df) θi θs = CallSpikes.analyze_logic df θi θs) := by
  constructor
  · unfold CallSpikes.outgoing
    rw [List.mem_filter]
  · intro h1
    have hex : CallSpikes.outgoingDirs.contains (pyUpper r.call_direction) = false := by
      rw [h1]; decide
    have hout := CallSpikes.outgoing_cons_excluded df hex
    unfold CallSpikes.analyze_logic CallSpikes.intl_suspects CallSpikes.intl_counts
      CallSpikes.intl_calls CallSpikes.spike_suspects CallSpikes.call_spikes
    rw [hout]

theorem callvolume_direction_filter_witness :
    CallSpikes.analyze_logic
      [⟨"B", "123456789", "1", 0⟩, ⟨"A", "4412345678", "MO", 10⟩] 0 5 =
    CallSpikes.analyze_logic [⟨"A", "4412345678", "MO", 10⟩] 0 5 :=
  (callvolume_direction_filter [⟨"A", "4412345678", "MO", 10⟩]
    ⟨"B", "123456789", "1", 0⟩ 0 5).2 (by decide)

end AnomalyzeWeb

namespace AnomalyzeWeb

/-! ### Claim C10: rows with unparsable time or null caller are dropped entirely -/

theorem SimSwap.parse_eq_filter_map (pt : String → Option Nat)
    (df : List SimSwap.SimRaw) :
    SimSwap.parse_cdr pt df =
      (df.filter (SimSwap.keepsRow pt)).map (SimSwap.coerceRow pt) := by
  induction df with
  | nil => rfl
  | cons r tl ih =>
    unfold SimSwap.parse_cdr at ih ⊢
    rw [List.filterMap_cons, List.filter_cons]
    cases hst : r.start_time.bind pt <;> cases hcn : r.calling_number <;>
      simp only [hst, hcn, SimSwap.keepsRow, Option.isSome_none, Option.isSome_some,
        Bool.false_and, Bool.and_false, Bool.and_true, Bool.true_and,
        Bool.false_eq_true, if_false, if_true, List.map_cons] <;>
      first
        | exact ih
        | (rw [ih]
           unfold SimSwap.coerceRow
           rw [hst, hcn]
           rfl)

/-- Claim C10: in the SIM-Swap detector, `parse_cdr` drops exactly the records
whose `start_time` fails to parse or whose `calling_number` is null (the other
required columns were stringified by `astype(str)`, so a null there becomes the
string "nan" and never triggers the drop); a dropped record is excluded from
the whole analysis, in particular from the device-reuse method's
distinct-imsi-per-imei count, even though that count does not depend on time. -/
theorem simswap_parse_drop_rule (pt : String → Option Nat) (df : List SimSwap.SimRaw)
    (w : Nat) (θ : ℚ) :
    SimSwap.parse_cdr pt df =
      (df.filter (SimSwap.keepsRow pt)).map (SimSwap.coerceRow pt) ∧
    (∀ r : SimSwap.SimRaw, SimSwap.keepsRow pt r = false →
      SimSwap.parse_cdr pt [r] = []) ∧
    SimSwap.analyze_logic w θ (SimSwap.parse_cdr pt df) =
      SimSwap.analyze_logic w θ
        ((df.filter (SimSwap.keepsRow pt)).map (SimSwap.coerceRow pt)) := by
  refine ⟨SimSwap.parse_eq_filter_map pt df, ?_, ?_⟩
  · intro r hr
    rw [SimSwap.parse_eq_filter_map]
    rw [List.filter_cons]
    rw [hr]
    rfl
  · rw [SimSwap.parse_eq_filter_map]

theorem simswap_parse_drop_rule_witness :
    SimSwap.parse_cdr (fun s => if s = "t" then some 60 else none)
      [⟨some "900", some "E", some "111", some "201", some "bad"⟩] = [] ∧
    SimSwap.parse_cdr (fun s => if s = "t" then some 60 else none)
      [⟨some "900", some "E", none, some "201", some "t"⟩] = [] :=
  ⟨(simswap_parse_drop_rule (fun s => if s = "t" then some 60 else none) [] 1 1).2.1
      ⟨some "900", some "E", some "111", some "201", some "bad"⟩ (by decide),
   (simswap_parse_drop_rule (fun s => if s = "t" then some 60 else none) [] 1 1).2.1
      ⟨some "900", some "E", none, some "201", some "t"⟩ (by decide)⟩

end AnomalyzeWeb

namespace AnomalyzeWeb

/-! ### Claim C7: toll-free prefix selection, daily threshold, top-10 report -/

theorem TollFree.mem_daily_counts_iff (df : List CallRow) (pres : List String)
    (k : String × Nat) (n : Nat) :
    (k, n) ∈ TollFree.daily_counts df pres ↔
      n = TollFree.dailyCountOf df pres k ∧ 0 < n := by
  unfold TollFree.daily_counts TollFree.dailyCountOf
  rw [mem_groupCounts_iff]
  constructor
  · rintro ⟨h1, h2⟩
    exact ⟨h1, h1 ▸ h2⟩
  · rintro ⟨h1, h2⟩
    exact ⟨h1, h1 ▸ h2⟩

theorem TollFree.mem_flagged_iff (df : List CallRow) (θ : Nat) (pstr : String)
    (k : String × Nat) (c : Nat) :
    (k, c) ∈ (TollFree.analyze_logic df θ pstr).1 ↔
      c = TollFree.dailyCountOf df (parsePrefixList pstr) k ∧ θ < c := by
  unfold TollFree.analyze_logic
  by_cases hc : (TollFree.tollfree_calls df (parsePrefixList pstr)).isEmpty
  · rw [if_pos hc]
    rw [List.isEmpty_iff] at hc
    simp only [List.not_mem_nil, false_iff, not_and]
    intro h1 h2
    unfold TollFree.dailyCountOf at h1
    rw [hc] at h1
    simp at h1
    omega
  · rw [if_neg hc]
    unfold TollFree.abusive_users
    rw [mem_sortCountDesc, List.mem_filter, TollFree.mem_daily_counts_iff]
    simp only [decide_eq_true_eq]
    constructor
    · rintro ⟨⟨h1, _⟩, h3⟩
      exact ⟨h1, h3⟩
    · rintro ⟨h1, h3⟩
      exact ⟨⟨h1, by omega⟩, h3⟩

theorem TollFree.snd_analyze (df : List CallRow) (θ : Nat) (pstr : String) :
    (TollFree.analyze_logic df θ pstr).2 =
      TollFree.top_targets df (parsePrefixList pstr) := by
  unfold TollFree.analyze_logic
  by_cases hc : (TollFree.tollfree_calls df (parsePrefixList pstr)).isEmpty
  · rw [if_pos hc]
    rw [List.isEmpty_iff] at hc
    unfold TollFree.top_targets
    rw [hc]
    simp [groupCounts, sortCountDesc]
  · rw [if_neg hc]

theorem TollFree.top_targets_counts (df : List CallRow) (pres : List String) :
    ∀ p ∈ TollFree.top_targets df pres,
      p.2 = TollFree.dialCount df pres p.1 ∧ 0 < p.2 := by
  intro p hp
  unfold TollFree.top_targets at hp
  have hp2 := List.mem_of_mem_take hp
  rw [mem_sortCountDesc] at hp2
  have hmem := (mem_groupCounts_iff
      ((TollFree.tollfree_calls df pres).map (fun r => r.called_number)) p.1 p.2).mp
    (by rwa [Prod.mk.eta])
  unfold TollFree.dialCount
  exact ⟨hmem.1, hmem.1 ▸ hmem.2⟩

theorem TollFree.top_targets_are_top (df : List CallRow) (pres : List String) :
    ∀ p ∈ TollFree.top_targets df pres, ∀ b : String,
      (∀ q ∈ TollFree.top_targets df pres, q.1 ≠ b) →
      TollFree.dialCount df pres b ≤ p.2 := by
  intro p hp b hb
  by_cases hzero : TollFree.dialCount df pres b = 0
  · rw [hzero]
    exact Nat.zero_le _
  have hmem : (b, TollFree.dialCount df pres b) ∈
      sortCountDesc (groupCounts
        ((TollFree.tollfree_calls df pres).map (fun r => r.called_number))) := by
    rw [mem_sortCountDesc, mem_groupCounts_iff]
    unfold TollFree.dialCount at hzero ⊢
    exact ⟨rfl, by omega⟩
  have hpw := sortCountDesc_pairwise
    (groupCounts ((TollFree.tollfree_calls df pres).map (fun r => r.called_number)))
  rw [← List.take_append_drop 10 (sortCountDesc (groupCounts
      ((TollFree.tollfree_calls df pres).map (fun r => r.called_number))))] at hpw hmem
  rw [List.pairwise_append] at hpw
  rw [List.mem_append] at hmem
  cases hmem with
  | inl hin =>
    exact absurd rfl (hb (b, TollFree.dialCount df pres b) hin)
  | inr hdrop =>
    exact hpw.2.2 p hp (b, TollFree.dialCount df pres b) hdrop

/-- Claim C7: the Toll-Free Abuse detector selects outgoing records whose
called_number starts with any configured prefix by string-prefix matching (so
"18009991111" matches prefix "1800" while "918009991111" does not), groups the
selection by (calling_number, calendar day) and flags exactly the groups whose
count strictly exceeds the daily threshold; separately it reports at most ten
most-dialed toll-free destinations with their true counts, independent of the
threshold. -/
theorem tollfree_abuse_rule (df : List CallRow) (θ θ2 : Nat) (pstr : String) :
    (∀ r : CallRow, r ∈ TollFree.tollfree_calls df (parsePrefixList pstr) ↔
      r ∈ df ∧ TollFree.outgoingDirs.contains (pyUpper r.call_direction) = true ∧
        startsWithAny (parsePrefixList pstr) r.called_number = true) ∧
    (∀ (k : String × Nat) (c : Nat),
      (k, c) ∈ (TollFree.analyze_logic df θ pstr).1 ↔
        c = TollFree.dailyCountOf df (parsePrefixList pstr) k ∧ θ < c) ∧
    ((TollFree.analyze_logic df θ pstr).2.length ≤ 10 ∧
     (∀ p ∈ (TollFree.analyze_logic df θ pstr).2,
        p.2 = TollFree.dialCount df (parsePrefixList pstr) p.1) ∧
     (∀ p ∈ (TollFree.analyze_logic df θ pstr).2, ∀ b : String,
        (∀ q ∈ (TollFree.analyze_logic df θ pstr).2, q.1 ≠ b) →
        TollFree.dialCount df (parsePrefixList pstr) b ≤ p.2)) ∧
    (TollFree.analyze_logic df θ pstr).2 = (TollFree.analyze_logic df θ2 pstr).2 ∧
    (startsWithAny (parsePrefixList "1800") "18009991111" = true ∧
     startsWithAny (parsePrefixList "1800") "918009991111" = false) := by
  refine ⟨?_, TollFree.mem_flagged_iff df θ pstr, ⟨?_, ?_, ?_⟩, ?_, by decide, by decide⟩
  · intro r
    unfold TollFree.tollfree_calls
    rw [List.mem_filter, Bool.and_eq_true]
  · rw [TollFree.snd_analyze]
    unfold TollFree.top_targets
    exact List.length_take_le 10 _
  · rw [TollFree.snd_analyze]
    exact fun p hp => (TollFree.top_targets_counts df (parsePrefixList pstr) p hp).1
  · rw [TollFree.snd_analyze]
    exact TollFree.top_targets_are_top df (parsePrefixList pstr)
  · simp only [TollFree.snd_analyze]

theorem tollfree_abuse_rule_witness :
    (("B", 0), 3) ∈ (TollFree.analyze_logic
      [⟨"B", "18009991111", "1", 100⟩, ⟨"B", "18009991111", "1", 200⟩,
       ⟨"B", "18009991111", "1", 300⟩] 2 "1800, 1860").1 :=
  ((tollfree_abuse_rule
      [⟨"B", "18009991111", "1", 100⟩, ⟨"B", "18009991111", "1", 200⟩,
       ⟨"B", "18009991111", "1", 300⟩] 2 5 "1800, 1860").2.1
    ("B", 0) 3).mpr ⟨by decide, by decide⟩

end AnomalyzeWeb

namespace AnomalyzeWeb

/-! ### Claim C2: Tower-Jump flagging mask -/

theorem TowerJump.mem_flaggedIndices (dist : TowerJump.TJRow → TowerJump.TJRow → ℚ)
    (minDist maxTime : ℚ) (l : List TowerJump.TJRow) (i : Nat) :
    i ∈ TowerJump.flaggedIndices dist minDist maxTime l ↔
      i < l.length ∧ TowerJump.tjFlag dist minDist maxTime l i = true := by
  unfold TowerJump.flaggedIndices
  rw [List.mem_filter, List.mem_range]

/-- Claim C2: in the Tower-Jump detector, after sorting by (imsi, start_time) a
transition from a row to its immediate predecessor within the same imsi group
is flagged exactly when the distance is at least `min_distance_km` and the
elapsed minutes lie in [0, max_time_min]; a transition with negative elapsed
time is never flagged regardless of distance, and a row with no predecessor
(first record of its imsi) is never flagged.  The haversine value itself is the
abstract `dist` argument; the findings are one report row per flagged index. -/
theorem towerjump_flag_rule (dist : TowerJump.TJRow → TowerJump.TJRow → ℚ)
    (df : List TowerJump.TJRow) (minDist maxTime : ℚ) (i j : Nat) :
    (TowerJump.prevIdx (TowerJump.sortRecords df) i = some j →
      i < (TowerJump.sortRecords df).length →
      (i ∈ TowerJump.flaggedIndices dist minDist maxTime (TowerJump.sortRecords df) ↔
        minDist ≤ dist ((TowerJump.sortRecords df).getD j default)
            ((TowerJump.sortRecords df).getD i default) ∧
        0 ≤ TowerJump.elapsedMin ((TowerJump.sortRecords df).getD j default)
            ((TowerJump.sortRecords df).getD i default) ∧
        TowerJump.elapsedMin ((TowerJump.sortRecords df).getD j default)
            ((TowerJump.sortRecords df).getD i default) ≤ maxTime)) ∧
    (TowerJump.prevIdx (TowerJump.sortRecords df) i = none →
      i ∉ TowerJump.flaggedIndices dist minDist maxTime (TowerJump.sortRecords df)) ∧
    (∀ (l : List TowerJump.TJRow) (k m : Nat),
      TowerJump.prevIdx l k = some m →
      TowerJump.elapsedMin (l.getD m default) (l.getD k default) < 0 →
      k ∉ TowerJump.flaggedIndices dist minDist maxTime l) ∧
    (TowerJump.analyze_logic dist df minDist maxTime).length =
      (TowerJump.flaggedIndices dist minDist maxTime (TowerJump.sortRecords df)).length := by
  refine ⟨?_, ?_, ?_, ?_⟩
  · intro hp hi
    rw [TowerJump.mem_flaggedIndices]
    unfold TowerJump.tjFlag
    rw [hp]
    simp only [Bool.and_eq_true, decide_eq_true_eq, ge_iff_le]
    constructor
    · rintro ⟨_, ⟨h1, h2⟩, h3⟩
      exact ⟨h1, h3, h2⟩
    · rintro ⟨h1, h2, h3⟩
      exact ⟨hi, ⟨h1, h3⟩, h2⟩
  · intro hp hmem
    rw [TowerJump.mem_flaggedIndices] at hmem
    obtain ⟨_, hflag⟩ := hmem
    unfold TowerJump.tjFlag at hflag
    rw [hp] at hflag
    cases hflag
  · intro l k m hp hneg hmem
    rw [TowerJump.mem_flaggedIndices] at hmem
    obtain ⟨_, hflag⟩ := hmem
    unfold TowerJump.tjFlag at hflag
    rw [hp] at hflag
    simp only [Bool.and_eq_true, decide_eq_true_eq, ge_iff_le] at hflag
    exact absurd hflag.2 (by exact not_le.mpr hneg)
  · simp only [TowerJump.analyze_logic]
    rw [List.length_map]

theorem towerjump_flag_rule_witness :
    1 ∈ TowerJump.flaggedIndices (fun _ _ => (100 : ℚ)) 10 5
      (TowerJump.sortRecords
        [⟨"I", 60, 11, 11, "c2"⟩, ⟨"I", 0, 10, 10, "c1"⟩]) ∧
    1 ∉ TowerJump.flaggedIndices (fun _ _ => (100 : ℚ)) 10 5
      [⟨"I", 600, 11, 11, "c2"⟩, ⟨"I", 0, 10, 10, "c1"⟩] := by
  constructor
  · refine ((towerjump_flag_rule (fun _ _ => (100 : ℚ))
      [⟨"I", 60, 11, 11, "c2"⟩, ⟨"I", 0, 10, 10, "c1"⟩] 10 5 1 0).1
      (by decide) (by decide)).mpr ⟨by norm_num, ?_, ?_⟩
    · rw [show TowerJump.sortRecords [⟨"I", 60, 11, 11, "c2"⟩, ⟨"I", 0, 10, 10, "c1"⟩] =
          [⟨"I", 0, 10, 10, "c1"⟩, ⟨"I", 60, 11, 11, "c2"⟩] from by decide]
      norm_num [TowerJump.elapsedMin]
    · rw [show TowerJump.sortRecords [⟨"I", 60, 11, 11, "c2"⟩, ⟨"I", 0, 10, 10, "c1"⟩] =
          [⟨"I", 0, 10, 10, "c1"⟩, ⟨"I", 60, 11, 11, "c2"⟩] from by decide]
      norm_num [TowerJump.elapsedMin]
  · refine (towerjump_flag_rule (fun _ _ => (100 : ℚ)) [] 10 5 0 0).2.2.1
      [⟨"I", 600, 11, 11, "c2"⟩, ⟨"I", 0, 10, 10, "c1"⟩] 1 0 (by decide) ?_
    norm_num [TowerJump.elapsedMin, List.getD]

end AnomalyzeWeb

namespace AnomalyzeWeb

/-! ### Claim C5: time-bucketed pairwise behavioral similarity -/

theorem mem_of_mem_listPairs {α : Type} {l : List α} {x y : α}
    (h : (x, y) ∈ SimSwap.listPairs l) : x ∈ l ∧ y ∈ l := by
  induction l with
  | nil => cases h
  | cons a t ih =>
    unfold SimSwap.listPairs at h
    rw [List.mem_append] at h
    cases h with
    | inl h =>
      rw [List.mem_map] at h
      obtain ⟨c, hc, he⟩ := h
      obtain ⟨h1, h2⟩ := Prod.mk.injEq .. ▸ he
      subst h1
      subst h2
      exact ⟨List.mem_cons_self a t, List.mem_cons_of_mem a hc⟩
    | inr h =>
      obtain ⟨h1, h2⟩ := ih h
      exact ⟨List.mem_cons_of_mem a h1, List.mem_cons_of_mem a h2⟩

theorem listPairs_of_both_mem {α : Type} {l : List α} {x y : α}
    (hx : x ∈ l) (hy : y ∈ l) (hne : x ≠ y) :
    (x, y) ∈ SimSwap.listPairs l ∨ (y, x) ∈ SimSwap.listPairs l := by
  induction l with
  | nil => cases hx
  | cons a t ih =>
    rw [List.mem_cons] at hx hy
    cases hx with
    | inl hxa =>
      cases hy with
      | inl hya => exact absurd (hxa.trans hya.symm) hne
      | inr hyt =>
        left
        unfold SimSwap.listPairs
        rw [List.mem_append, List.mem_map]
        exact Or.inl ⟨y, hyt, by rw [hxa]⟩
    | inr hxt =>
      cases hy with
      | inl hya =>
        right
        unfold SimSwap.listPairs
        rw [List.mem_append, List.mem_map]
        exact Or.inl ⟨x, hxt, by rw [hya]⟩
      | inr hyt =>
        cases ih hxt hyt with
        | inl h =>
          left
          unfold SimSwap.listPairs
          rw [List.mem_append]
          exact Or.inr h
        | inr h =>
          right
          unfold SimSwap.listPairs
          rw [List.mem_append]
          exact Or.inr h

theorem listPairs_pairwise {α : Type} {R : α → α → Prop} {l : List α}
    (h : l.Pairwise R) : ∀ p ∈ SimSwap.listPairs l, R p.1 p.2 := by
  induction l with
  | nil =>
    intro p hp
    cases hp
  | cons a t ih =>
    rw [List.pairwise_cons] at h
    intro p hp
    unfold SimSwap.listPairs at hp
    rw [List.mem_append] at hp
    cases hp with
    | inl hp =>
      rw [List.mem_map] at hp
      obtain ⟨c, hc, he⟩ := hp
      rw [← he]
      exact h.1 c hc
    | inr hp => exact ih h.2 p hp

theorem SimSwap.mem_sigKeys_iff (w : Nat) (df : List SimSwap.SimRow) (k : String × Nat) :
    k ∈ SimSwap.sigKeys w df ↔
      ∃ r ∈ df, r.imsi = k.1 ∧ SimSwap.time_bucket w r.start_time = k.2 := by
  unfold SimSwap.sigKeys
  rw [List.mem_dedup, List.mem_map]
  constructor
  · rintro ⟨r, hr, he⟩
    exact ⟨r, hr, by rw [← he], by rw [← he]⟩
  · rintro ⟨r, hr, h1, h2⟩
    exact ⟨r, hr, by rw [h1, h2]⟩

theorem SimSwap.mem_signatures_iff (w : Nat) (df : List SimSwap.SimRow)
    (p : (String × Nat) × Finset String) :
    p ∈ SimSwap.signatures w df ↔
      p.1 ∈ SimSwap.sigKeys w df ∧ p.2 = SimSwap.sigSet w df p.1 := by
  unfold SimSwap.signatures
  rw [List.mem_map]
  constructor
  · rintro ⟨k, hk, he⟩
    rw [← he]
    exact ⟨hk, rfl⟩
  · rintro ⟨h1, h2⟩
    refine ⟨p.1, h1, ?_⟩
    rw [← h2]

theorem SimSwap.mem_bucketGroup_iff (w : Nat) (df : List SimSwap.SimRow) (b : Nat)
    (p : (String × Nat) × Finset String) :
    p ∈ SimSwap.bucketGroup w df b ↔ p ∈ SimSwap.signatures w df ∧ p.1.2 = b := by
  unfold SimSwap.bucketGroup
  rw [List.mem_filter]
  simp only [beq_iff_eq]

theorem SimSwap.bucketGroup_keys_pairwise (w : Nat) (df : List SimSwap.SimRow) (b : Nat) :
    (SimSwap.bucketGroup w df b).Pairwise (fun p q => p.1 ≠ q.1) := by
  have h1 : (SimSwap.sigKeys w df).Nodup := List.nodup_dedup _
  have h2 : (SimSwap.signatures w df).Pairwise (fun p q => p.1 ≠ q.1) := by
    unfold SimSwap.signatures
    refine List.Pairwise.map (fun k => (k, SimSwap.sigSet w df k)) ?_ h1
    intro a c hac
    simpa using hac
  exact List.Pairwise.filter _ h2

theorem SimSwap.jaccard_comm (a b : Finset String) :
    SimSwap.calculate_jaccard_similarity a b = SimSwap.calculate_jaccard_similarity b a := by
  unfold SimSwap.calculate_jaccard_similarity
  by_cases h : a = ∅ ∨ b = ∅
  · rw [if_pos h, if_pos h.symm]
  · rw [if_neg h, if_neg (fun hc => h hc.symm)]
    rw [Finset.inter_comm, Finset.union_comm]

theorem SimSwap.bucket_of_key_mem (w : Nat) (df : List SimSwap.SimRow)
    {k : String × Nat} (hk : k ∈ SimSwap.sigKeys w df) :
    k.2 ∈ SimSwap.buckets w df := by
  unfold SimSwap.buckets
  rw [List.mem_dedup, List.mem_map]
  exact ⟨k, hk, rfl⟩

theorem SimSwap.mem_pattern_findings_iff (w : Nat) (θ : ℚ) (df : List SimSwap.SimRow)
    (f : SimSwap.PatternFinding) :
    f ∈ SimSwap.pattern_findings w θ df ↔
      ∃ b ∈ SimSwap.buckets w df,
        ∃ pq ∈ SimSwap.listPairs (SimSwap.bucketGroup w df b),
          2 ≤ (SimSwap.bucketGroup w df b).length ∧
          θ ≤ SimSwap.calculate_jaccard_similarity pq.1.2 pq.2.2 ∧
          f = { time_window := b, imsi_1 := pq.1.1.1, imsi_2 := pq.2.1.1,
                similarity_score :=
                  SimSwap.round2 (SimSwap.calculate_jaccard_similarity pq.1.2 pq.2.2),
                common_contacts := pq.1.2 ∩ pq.2.2 } := by
  unfold SimSwap.pattern_findings
  rw [List.mem_flatMap]
  constructor
  · rintro ⟨b, hb, hf⟩
    by_cases hlen : (SimSwap.bucketGroup w df b).length < 2
    · rw [if_pos hlen] at hf
      cases hf
    · rw [if_neg hlen] at hf
      rw [List.mem_filterMap] at hf
      obtain ⟨pq, hpq, he⟩ := hf
      by_cases hθ : θ ≤ SimSwap.calculate_jaccard_similarity pq.1.2 pq.2.2
      · rw [if_pos hθ] at he
        exact ⟨b, hb, pq, hpq, by omega, hθ, (Option.some.inj he).symm⟩
      · rw [if_neg hθ] at he
        cases he
  · rintro ⟨b, hb, pq, hpq, hlen, hθ, hf⟩
    refine ⟨b, hb, ?_⟩
    rw [if_neg (by omega)]
    rw [List.mem_filterMap]
    exact ⟨pq, hpq, by rw [if_pos hθ, hf]⟩

/-- Claim C5: the SIM-Swap behavioral-similarity method compares only pairs of
distinct imsi values active in the same time bucket (after flooring start_time
to the bucket width); a pair is recorded exactly when its Jaccard score is at
least similarity_threshold, the finding carrying the bucket, the two imsi
values, the (rounded) score, and the shared contact set — imsi values active
only in different buckets never produce a finding, since every recorded
finding has both imsi values active in its own bucket. -/
theorem sim_pattern_similarity_rule (w : Nat) (θ : ℚ) (df : List SimSwap.SimRow) :
    (∀ f ∈ SimSwap.pattern_findings w θ df,
      f.imsi_1 ≠ f.imsi_2 ∧
      SimSwap.activeIn w df f.imsi_1 f.time_window ∧
      SimSwap.activeIn w df f.imsi_2 f.time_window ∧
      θ ≤ SimSwap.calculate_jaccard_similarity
        (SimSwap.sigSet w df (f.imsi_1, f.time_window))
        (SimSwap.sigSet w df (f.imsi_2, f.time_window)) ∧
      f.similarity_score = SimSwap.round2 (SimSwap.calculate_jaccard_similarity
        (SimSwap.sigSet w df (f.imsi_1, f.time_window))
        (SimSwap.sigSet w df (f.imsi_2, f.time_window))) ∧
      f.common_contacts =
        SimSwap.sigSet w df (f.imsi_1, f.time_window) ∩
          SimSwap.sigSet w df (f.imsi_2, f.time_window)) ∧
    (∀ (a b : String) (tb : Nat), a ≠ b →
      SimSwap.activeIn w df a tb → SimSwap.activeIn w df b tb →
      θ ≤ SimSwap.calculate_jaccard_similarity (SimSwap.sigSet w df (a, tb))
        (SimSwap.sigSet w df (b, tb)) →
      ({ time_window := tb, imsi_1 := a, imsi_2 := b,
         similarity_score := SimSwap.round2 (SimSwap.calculate_jaccard_similarity
           (SimSwap.sigSet w df (a, tb)) (SimSwap.sigSet w df (b, tb))),
         common_contacts := SimSwap.sigSet w df (a, tb) ∩ SimSwap.sigSet w df (b, tb) } :
           SimSwap.PatternFinding) ∈ SimSwap.pattern_findings w θ df ∨
      ({ time_window := tb, imsi_1 := b, imsi_2 := a,
         similarity_score := SimSwap.round2 (SimSwap.calculate_jaccard_similarity
           (SimSwap.sigSet w df (b, tb)) (SimSwap.sigSet w df (a, tb))),
         common_contacts := SimSwap.sigSet w df (b, tb) ∩ SimSwap.sigSet w df (a, tb) } :
           SimSwap.PatternFinding) ∈ SimSwap.pattern_findings w θ df) := by
  constructor
  · intro f hf
    rw [SimSwap.mem_pattern_findings_iff] at hf
    obtain ⟨b, _, pq, hpq, _, hθ, hfe⟩ := hf
    obtain ⟨hm1, hm2⟩ := mem_of_mem_listPairs hpq
    obtain ⟨hsig1, hb1⟩ := (SimSwap.mem_bucketGroup_iff w df b pq.1).mp hm1
    obtain ⟨hsig2, hb2⟩ := (SimSwap.mem_bucketGroup_iff w df b pq.2).mp hm2
    obtain ⟨hk1, hv1⟩ := (SimSwap.mem_signatures_iff w df pq.1).mp hsig1
    obtain ⟨hk2, hv2⟩ := (SimSwap.mem_signatures_iff w df pq.2).mp hsig2
    have hkne : pq.1.1 ≠ pq.2.1 :=
      listPairs_pairwise (SimSwap.bucketGroup_keys_pairwise w df b) pq hpq
    have hkey1 : pq.1.1 = (pq.1.1.1, b) := Prod.ext rfl hb1
    have hkey2 : pq.2.1 = (pq.2.1.1, b) := Prod.ext rfl hb2
    subst hfe
    simp only
    have hine : pq.1.1.1 ≠ pq.2.1.1 := by
      intro h
      apply hkne
      rw [hkey1, hkey2, h]
    refine ⟨hine, ?_, ?_, ?_, ?_, ?_⟩
    · obtain ⟨r, hr, h1, h2⟩ := (SimSwap.mem_sigKeys_iff w df pq.1.1).mp hk1
      exact ⟨r, hr, h1, by rw [h2, hb1]⟩
    · obtain ⟨r, hr, h1, h2⟩ := (SimSwap.mem_sigKeys_iff w df pq.2.1).mp hk2
      exact ⟨r, hr, h1, by rw [h2, hb2]⟩
    · rw [← hkey1, ← hkey2, ← hv1, ← hv2]
      exact hθ
    · rw [← hkey1, ← hkey2, ← hv1, ← hv2]
    · rw [← hkey1, ← hkey2, ← hv1, ← hv2]
  · intro a b tb hne hA hB hθ
    obtain ⟨ra, hra, hrai, hrab⟩ := hA
    obtain ⟨rb, hrb, hrbi, hrbb⟩ := hB
    have hka : (a, tb) ∈ SimSwap.sigKeys w df :=
      (SimSwap.mem_sigKeys_iff w df (a, tb)).mpr ⟨ra, hra, hrai, hrab⟩
    have hkb : (b, tb) ∈ SimSwap.sigKeys w df :=
      (SimSwap.mem_sigKeys_iff w df (b, tb)).mpr ⟨rb, hrb, hrbi, hrbb⟩
    have hbmem : tb ∈ SimSwap.buckets w df := SimSwap.bucket_of_key_mem w df hka
    have hea : ((a, tb), SimSwap.sigSet w df (a, tb)) ∈ SimSwap.bucketGroup w df tb :=
      (SimSwap.mem_bucketGroup_iff w df tb _).mpr
        ⟨(SimSwap.mem_signatures_iff w df _).mpr ⟨hka, rfl⟩, rfl⟩
    have heb : ((b, tb), SimSwap.sigSet w df (b, tb)) ∈ SimSwap.bucketGroup w df tb :=
      (SimSwap.mem_bucketGroup_iff w df tb _).mpr
        ⟨(SimSwap.mem_signatures_iff w df _).mpr ⟨hkb, rfl⟩, rfl⟩
    have hene : ((a, tb), SimSwap.sigSet w df (a, tb)) ≠
        ((b, tb), SimSwap.sigSet w df (b, tb)) := by
      intro h
      apply hne
      have := congrArg (fun p => p.1.1) h
      simpa using this
    have hlen := two_le_length_of_mem_ne hea heb hene
    cases listPairs_of_both_mem hea heb hene with
    | inl hp =>
      left
      rw [SimSwap.mem_pattern_findings_iff]
      exact ⟨tb, hbmem, _, hp, hlen, hθ, rfl⟩
    | inr hp =>
      right
      rw [SimSwap.mem_pattern_findings_iff]
      refine ⟨tb, hbmem, _, hp, hlen, ?_, rfl⟩
      rw [SimSwap.jaccard_comm]
      exact hθ

end AnomalyzeWeb

namespace AnomalyzeWeb

theorem sim_pattern_similarity_rule_witness :
    ({ time_window := 0, imsi_1 := "A", imsi_2 := "B",
       similarity_score := SimSwap.round2 (SimSwap.calculate_jaccard_similarity
         (SimSwap.sigSet 1800 SimSwap.patternWitnessDf ("A", 0))
         (SimSwap.sigSet 1800 SimSwap.patternWitnessDf ("B", 0))),
       common_contacts := SimSwap.sigSet 1800 SimSwap.patternWitnessDf ("A", 0) ∩
         SimSwap.sigSet 1800 SimSwap.patternWitnessDf ("B", 0) } :
         SimSwap.PatternFinding) ∈
      SimSwap.pattern_findings 1800 1 SimSwap.patternWitnessDf ∨
    ({ time_window := 0, imsi_1 := "B", imsi_2 := "A",
       similarity_score := SimSwap.round2 (SimSwap.calculate_jaccard_similarity
         (SimSwap.sigSet 1800 SimSwap.patternWitnessDf ("B", 0))
         (SimSwap.sigSet 1800 SimSwap.patternWitnessDf ("A", 0))),
       common_contacts := SimSwap.sigSet 1800 SimSwap.patternWitnessDf ("B", 0) ∩
         SimSwap.sigSet 1800 SimSwap.patternWitnessDf ("A", 0) } :
         SimSwap.PatternFinding) ∈
      SimSwap.pattern_findings 1800 1 SimSwap.patternWitnessDf := by
  have hsA : SimSwap.sigSet 1800 SimSwap.patternWitnessDf ("A", 0) =
      {"201", "202", "203"} := by decide
  have hsB : SimSwap.sigSet 1800 SimSwap.patternWitnessDf ("B", 0) =
      {"201", "202", "203"} := by decide
  refine (sim_pattern_similarity_rule 1800 1 SimSwap.patternWitnessDf).2 "A" "B" 0
    (by decide)
    ⟨⟨"A", "E", "1", "201", 100⟩, by decide, rfl, by decide⟩
    ⟨⟨"B", "F", "2", "201", 400⟩, by decide, rfl, by decide⟩
    ?_
  rw [hsA, hsB]
  unfold SimSwap.calculate_jaccard_similarity
  rw [if_neg (by decide)]
  rw [show (({"201", "202", "203"} : Finset String) ∩ {"201", "202", "203"}).card = 3
    from by decide]
  rw [show (({"201", "202", "203"} : Finset String) ∪ {"201", "202", "203"}).card = 3
    from by decide]
  norm_num

end AnomalyzeWeb
